import Mathlib

/-!
Verification of the thread-isolated asynchronous engine bridge of hrequests
(src/hrequests/browser/engine.py and src/hrequests/browser/browser.py).

The development shallowly embeds the three components the spec calls Engine
(class BrowserEngine), HandleProxy (class BrowserObjectWrapper) and
ClientLifecycle (class BrowserSession together with AbstractBrowserClient).
Python dynamic values are modelled by an inductive type classifying an
attribute the way BrowserObjectWrapper.__getattribute__ does at runtime:
plain value, object with a __dict__, synchronous callable, asynchronous
callable (returns a coroutine when invoked), or coroutine (awaitable
property).  Callables are modelled by their returned value, since the
wrapper logic only inspects the returned object.
-/

namespace Hrequests

/-- A Python value as classified by BrowserObjectWrapper.__getattribute__:
a primitive (no __dict__, not callable, not a coroutine), an object carrying
a __dict__ of named attributes, a callable whose invocation returns a
non-coroutine value, a callable whose invocation returns a coroutine that
awaits to the given value, or a bare coroutine awaiting to the given value. -/
inductive Py where
  | prim : Nat → Py
  | obj : List (String × Py) → Py
  | syncFn : Py → Py
  | asyncFn : Py → Py
  | coro : Py → Py

/-- hasattr(x, name): in the model only objects expose named attributes. -/
def Py.hasAttr : Py → String → Bool
  | .obj attrs, name => attrs.any (fun p => p.1 == name)
  | _, _ => false

/-- getattr(x, name) on the underlying handle: looks the name up in the
__dict__.  Returns none when the attribute does not exist (AttributeError). -/
def Py.getattr : Py → String → Option Py
  | .obj attrs, name => List.lookup name attrs
  | _, _ => none

/-- hasattr(x, "__dict__"): true exactly for objects in the model. -/
def Py.hasDunderDict : Py → Bool
  | .obj _ => true
  | _ => false

/-- callable(x): true for both kinds of callables. -/
def Py.isCallable : Py → Bool
  | .syncFn _ => true
  | .asyncFn _ => true
  | _ => false

/-- asyncio.iscoroutine(x). -/
def Py.isCoroutine : Py → Bool
  | .coro _ => true
  | _ => false

/-- The HandleProxy: one underlying handle plus the owning engine, the
engine being identified by a numeric id so that sharing of the engine
reference is expressible.  Mirrors BrowserObjectWrapper.__init__, which
stores the two fields with object.__setattr__. -/
structure BrowserObjectWrapper where
  obj : Py
  engine : Nat

/-- What the caller receives back from the proxy machinery: either a raw
(unwrapped) value or a new proxy. -/
inductive Ret where
  | raw : Py → Ret
  | wrapped : BrowserObjectWrapper → Ret

/-- BrowserObjectWrapper._wrap_result: wrap values that have a __dict__ and
a close attribute into a new proxy sharing the same engine; return every
other value unwrapped. -/
def wrap_result (w : BrowserObjectWrapper) (result : Py) : Ret :=
  if result.hasDunderDict && result.hasAttr "close" then
    .wrapped ⟨result, w.engine⟩
  else
    .raw result

/-- The thread on which a piece of work runs: the calling thread, or the
engine worker thread (the thread running the event loop). -/
inductive Thread where
  | caller
  | worker
deriving DecidableEq

/-- Outcome of one attribute access proxy.member, following the branch
structure of BrowserObjectWrapper.__getattribute__.  The engineDispatches
list records, in order, the engine ids to which a unit of work was handed
via Engine.execute during the access itself. -/
inductive GetattrOutcome where
  | internalAttr : GetattrOutcome
  | attrError : GetattrOutcome
  | boundMethod (attr : Py) : GetattrOutcome
  | awaited (r : Ret) : GetattrOutcome
  | nested (w : BrowserObjectWrapper) : GetattrOutcome
  | plain (n : Nat) : GetattrOutcome

/-- The reserved internal names of BrowserObjectWrapper. -/
def internalNames : List String := ["_obj", "_engine", "_wrap_result"]

/-- BrowserObjectWrapper.__getattribute__, together with the engine ids
dispatched to during the access.  Reserved names short-circuit; otherwise
getattr runs on the underlying handle (on the calling thread), and the
result is classified: callables produce a bound wrapper callable (nothing
executed yet), coroutines are awaited via Engine.execute and the awaited
value is wrapped, objects with a __dict__ become nested proxies sharing the
engine, and all remaining values are returned directly. -/
def getattribute (w : BrowserObjectWrapper) (name : String) :
    GetattrOutcome × List Nat :=
  if name ∈ internalNames then
    (.internalAttr, [])
  else
    match w.obj.getattr name with
    | none => (.attrError, [])
    | some attr =>
      -- the if callable / elif iscoroutine / elif hasattr __dict__ / else
      -- chain of the source, written as one exhaustive match: each test is
      -- decided by the head constructor (isCallable, isCoroutine,
      -- hasDunderDict above)
      match attr with
      | .syncFn r => (.boundMethod (.syncFn r), [])
      | .asyncFn r => (.boundMethod (.asyncFn r), [])
      | .coro r => (.awaited (wrap_result w r), [w.engine])
      | .obj attrs => (.nested ⟨.obj attrs, w.engine⟩, [])
      | .prim n => (.plain n, [])

/-- Invoking the wrapper callable returned for a callable attribute
(the inner function named method in __getattribute__).  Returns the value
handed to the caller, the thread on which the real call ran to completion,
and the engine ids dispatched to.  The real callable is always invoked on
the calling thread; when its result is a coroutine, a task awaiting it and
wrapping its value is run through Engine.execute (one unit of work, on the
worker thread), otherwise the result is wrapped on the calling thread with
no dispatch at all. -/
def invokeMethod (w : BrowserObjectWrapper) (attr : Py) :
    Option (Ret × Thread × List Nat) :=
  match attr with
  | .syncFn r => some (wrap_result w r, .caller, [])
  | .asyncFn r => some (wrap_result w r, .worker, [w.engine])
  | _ => none

/-!
The Engine: class BrowserEngine of src/hrequests/browser/engine.py.

The runtime state visible to the claims is: whether start_event has been
set, whether the event loop is still running callbacks (run_forever),
whether the worker thread is alive, and the pending set running_futures.
A future registered in running_futures is modelled by its
concurrent.futures state: pending, cancelled, finished with a value, or
finished with an exception.
-/

/-- State of one concurrent.futures.Future produced by
asyncio.run_coroutine_threadsafe.  Such a future is never marked running
(set_running_or_notify_cancel is only called by executors), so the states
are pending, cancelled, or finished with a value or an exception. -/
inductive FutState where
  | pending : FutState
  | cancelled : FutState
  | doneValue (v : Nat) : FutState
  | doneError : FutState
deriving DecidableEq

/-- future.done(): true for every state except pending. -/
def FutState.done : FutState → Bool
  | .pending => false
  | _ => true

/-- The body of the loop in BrowserEngine.stop: if not future.done() then
future.cancel().  Cancelling a pending future succeeds and moves it to
cancelled; every other state is already done and is left alone. -/
def cancelFuture : FutState → FutState
  | .pending => .cancelled
  | s => s

/-- The state of a BrowserEngine.  running_futures keeps the id of each
in-flight dispatched future together with its state. -/
structure EngineState where
  startEventSet : Bool
  loopRunning : Bool
  threadAlive : Bool
  running_futures : List (Nat × FutState)
deriving DecidableEq

/-- A BrowserEngine that has started: the worker thread set start_event
and entered run_forever, and no work has been dispatched yet. -/
def startedEngine : EngineState :=
  { startEventSet := true
    loopRunning := true
    threadAlive := true
    running_futures := [] }

namespace BrowserEngine

/-- BrowserEngine.stop: cancel every not-yet-done future in
running_futures, schedule loop.stop via call_soon_threadsafe (the loop
stops running callbacks), and join the worker thread.  The returned number
counts blocking joins of a live thread (Thread.join on a dead thread
returns immediately).  Nothing in stop raises: call_soon_threadsafe only
raises on a closed loop and the loop is stopped but never closed, and
joining a finished thread is a no-op. -/
def stop (e : EngineState) : EngineState × Nat :=
  ({ startEventSet := e.startEventSet
     loopRunning := false
     threadAlive := false
     running_futures := e.running_futures.map (fun p => (p.1, cancelFuture p.2)) },
   if e.threadAlive then 1 else 0)

/-- Behaviour of the coroutine obtained by calling fn(*args, **kwargs) on
the calling thread, once the loop runs it: it completes with a value,
raises, or never completes on its own. -/
inductive CoroBehavior where
  | completes (v : Nat) : CoroBehavior
  | raisesError : CoroBehavior
  | neverCompletes : CoroBehavior

/-- The object produced by invoking fn(*args, **kwargs) in
BrowserEngine.execute.  The invocation itself happens on the calling
thread, before anything is handed to the loop; only its result is
classified here. -/
inductive FnResult where
  | coroutine (b : CoroBehavior) : FnResult
  | nonCoroutine : FnResult

/-- What the thread calling BrowserEngine.execute observes. -/
inductive ExecOutcome where
  | blocksOnStart : ExecOutcome
  | typeError : ExecOutcome
  | blocksForever : ExecOutcome
  | value (v : Nat) : ExecOutcome
  | raisesError : ExecOutcome
  | blockedPending : ExecOutcome

/-- BrowserEngine.execute, paired with the number of units of work
submitted to the loop.  Steps of the source: (1) start_event.wait, which
blocks until the event is set; (2) fn(*args, **kwargs) is invoked on the
calling thread; (3) asyncio.run_coroutine_threadsafe raises TypeError on
the calling thread when the invocation did not produce a coroutine, before
anything is submitted; (4) otherwise one callback is submitted to the loop
and the caller blocks in future.result() inside __handle_future.  When the
loop is no longer running (after stop), the submitted callback is never
executed and future.result() blocks forever: there is no stopped flag and
no engine-stopped error in the source.  blockedPending marks a caller
still blocked on a coroutine that never completes on its own; it is
resolved only externally, e.g. by stop cancelling the future. -/
def execute (e : EngineState) (fn : FnResult) : ExecOutcome × Nat :=
  if e.startEventSet = false then
    (.blocksOnStart, 0)
  else
    match fn with
    | .nonCoroutine => (.typeError, 0)
    | .coroutine b =>
      if e.loopRunning = false then
        (.blocksForever, 1)
      else
        match b with
        | .completes v => (.value v, 1)
        | .raisesError => (.raisesError, 1)
        | .neverCompletes => (.blockedPending, 1)

end BrowserEngine

/-- What a caller blocked on future.result() in
BrowserEngine.__handle_future observes once the future is in the given
state: still blocked while pending, concurrent.futures.CancelledError when
cancelled, the value or the re-raised exception when finished. -/
inductive CallerResult where
  | blocked : CallerResult
  | cancelledError : CallerResult
  | value (v : Nat) : CallerResult
  | raisedError : CallerResult
deriving DecidableEq

/-- future.result() as observed by __handle_future for a future in the
given state. -/
def handle_future : FutState → CallerResult
  | .pending => .blocked
  | .cancelled => .cancelledError
  | .doneValue v => .value v
  | .doneError => .raisedError

/-!
The ClientLifecycle: class BrowserSession of src/hrequests/browser/browser.py
together with AbstractBrowserClient.stop of engine.py.

Fields kept in the model: the _closed flag, whether client.main_browser is
set, the temp_engine ownership flag, whether engine.stop() has been called,
how many times main_browser.close was dispatched through the engine
(releases), and how many engine dispatches the cookie-synchronisation
prologue of close() performed (cookieSyncs).  Teardown errors are modelled
by a boolean input clientStopRaises: when true, the client.stop() step
(engine.execute(main_browser.close)) raises, and the Bool returned next to
the state records whether the call propagated an exception.
-/

structure SessionState where
  closed : Bool
  mainBrowser : Bool
  temp_engine : Bool
  engineStopped : Bool
  releases : Nat
  cookieSyncs : Nat
deriving DecidableEq

namespace BrowserSession

/-- AbstractBrowserClient.stop: if self.main_browser is set, dispatch
main_browser.close through the engine (counted in releases). -/
def clientStop (s : SessionState) : SessionState :=
  if s.mainBrowser then { s with releases := s.releases + 1 } else s

/-- BrowserSession.shutdown: set _closed to true, then client.stop(), then
engine.stop() when temp_engine.  There is no try/finally in the source: an
exception raised by client.stop() propagates at once and the engine.stop()
line is never reached.  The returned Bool records whether shutdown raised. -/
def shutdown (s : SessionState) (clientStopRaises : Bool) :
    SessionState × Bool :=
  let s1 := { s with closed := true }
  if clientStopRaises then
    (s1, true)
  else
    let s2 := clientStop s1
    if s2.temp_engine then ({ s2 with engineStopped := true }, false)
    else (s2, false)

/-- BrowserSession.close: return immediately when _closed is already set;
otherwise synchronise cookies (work dispatched through the engine, counted
in cookieSyncs) and call shutdown. -/
def close (s : SessionState) (clientStopRaises : Bool) :
    SessionState × Bool :=
  if s.closed then
    (s, false)
  else
    shutdown { s with cookieSyncs := s.cookieSyncs + 1 } clientStopRaises

end BrowserSession

/-- A freshly started BrowserSession that created its own engine
(temp_engine) and holds a main browser. -/
def runningSession : SessionState :=
  { closed := false
    mainBrowser := true
    temp_engine := true
    engineStopped := false
    releases := 0
    cookieSyncs := 0 }

/-- A started engine with one caller blocked on a pending future. -/
def blockedEngine : EngineState :=
  { startEventSet := true
    loopRunning := true
    threadAlive := true
    running_futures := [(0, FutState.pending)] }

/-- A handle whose only member is a synchronous callable. -/
def syncHandle : Py := Py.obj [("get_value", Py.syncFn (Py.prim 5))]

/-- A proxy over syncHandle, owned by engine 0. -/
def syncProxy : BrowserObjectWrapper := ⟨syncHandle, 0⟩

/-- A handle-like value: it has a __dict__ and a close member. -/
def handleLikeChild : Py := Py.obj [("close", Py.syncFn (Py.prim 0))]

/-- A handle with a plain member and a nested object member. -/
def nestedHandle : Py :=
  Py.obj [("child", Py.obj [("leaf", Py.prim 7)]), ("n", Py.prim 3)]

/-!  Helper lemmas.  -/

theorem cancelFuture_idem (s : FutState) :
    cancelFuture (cancelFuture s) = cancelFuture s := by
  cases s <;> rfl

theorem cancelAll_idem (l : List (Nat × FutState)) :
    (l.map fun p => (p.1, cancelFuture p.2)).map (fun p => (p.1, cancelFuture p.2))
      = l.map fun p => (p.1, cancelFuture p.2) := by
  induction l with
  | nil => rfl
  | cons a t ih => simp [ih, cancelFuture_idem]

theorem clientStop_closed (s : SessionState) :
    (BrowserSession.clientStop s).closed = s.closed := by
  unfold BrowserSession.clientStop
  split <;> rfl

theorem shutdown_closed (s : SessionState) (b : Bool) :
    (BrowserSession.shutdown s b).1.closed = true := by
  unfold BrowserSession.shutdown
  cases b
  · simp
    split <;> simp [clientStop_closed]
  · rfl

theorem close_closed_noop (s : SessionState) (h : s.closed = true) (b : Bool) :
    BrowserSession.close s b = (s, false) := by
  unfold BrowserSession.close
  simp [h]

theorem getattribute_prim (w : BrowserObjectWrapper) (name : String) (n : Nat)
    (hn : name ∉ internalNames) (hg : w.obj.getattr name = some (Py.prim n)) :
    getattribute w name = (GetattrOutcome.plain n, []) := by
  unfold getattribute
  simp [hn, hg]

theorem getattribute_nested (w : BrowserObjectWrapper) (name : String)
    (attrs : List (String × Py)) (hn : name ∉ internalNames)
    (hg : w.obj.getattr name = some (Py.obj attrs)) :
    getattribute w name = (GetattrOutcome.nested ⟨Py.obj attrs, w.engine⟩, []) := by
  unfold getattribute
  simp [hn, hg]

end Hrequests

namespace Hrequests

/-!  Claim theorems.  -/

/-- C1 counterexample: the claim states that the underlying handle is only
ever called into via Engine.execute.  But for a member that resolves to a
synchronous callable, the wrapper callable invokes the real callable on the
calling thread and performs zero engine dispatches: accessing get_value on
syncProxy yields the bound method, and invoking it runs the real call on
Thread.caller with an empty dispatch list. -/
theorem C1_counterexample :
    (getattribute syncProxy "get_value").1
      = GetattrOutcome.boundMethod (Py.syncFn (Py.prim 5)) ∧
    invokeMethod syncProxy (Py.syncFn (Py.prim 5))
      = some (Ret.raw (Py.prim 5), Thread.caller, []) ∧
    Thread.caller ≠ Thread.worker ∧ ([] : List Nat) ≠ [syncProxy.engine] := by
  refine ⟨rfl, rfl, by decide, by decide⟩

/-- C1 (amended): invoking a wrapped callable calls the real callable on
the calling thread; exactly when that call returns a coroutine, awaiting
the coroutine to completion and wrapping its value happens inside a single
unit of work dispatched through Engine.execute on the worker thread; a
synchronous callable completes entirely on the calling thread with no
dispatch; and any single attribute access dispatches at most one unit of
work, always to the own engine (the awaitable-property case). -/
theorem C1_amended (w : BrowserObjectWrapper) (r : Py) :
    invokeMethod w (Py.asyncFn r) = some (wrap_result w r, Thread.worker, [w.engine]) ∧
    invokeMethod w (Py.syncFn r) = some (wrap_result w r, Thread.caller, []) ∧
    ∀ name, (getattribute w name).2 = [] ∨ (getattribute w name).2 = [w.engine] := by
  refine ⟨rfl, rfl, ?_⟩
  intro name
  unfold getattribute
  split
  · exact Or.inl rfl
  · cases hg : w.obj.getattr name with
    | none => exact Or.inl rfl
    | some attr =>
      cases attr
      · exact Or.inl rfl
      · exact Or.inl rfl
      · exact Or.inl rfl
      · exact Or.inl rfl
      · exact Or.inr rfl

/-- C2 (code bug): the claim says execute after stop fails immediately
with an engine-stopped error.  In the source there is no stopped flag and
no such error: after stop, start_event is still set, the coroutine is
submitted to the no-longer-running loop, and the caller blocks forever in
future.result().  Evaluating the model at the failing input shows the
caller blocks forever instead of failing fast. -/
theorem C2_execute_after_stop_blocks :
    BrowserEngine.execute (BrowserEngine.stop startedEngine).1
        (BrowserEngine.FnResult.coroutine (BrowserEngine.CoroBehavior.completes 42))
      = (BrowserEngine.ExecOutcome.blocksForever, 1) := rfl

/-- C3: stop cancels every pending entry of running_futures, and a caller
blocked in execute on such a future observes CancelledError from
future.result() rather than staying blocked. -/
theorem C3_stop_cancels_pending (e : EngineState) (id : Nat)
    (h : (id, FutState.pending) ∈ e.running_futures) :
    (id, FutState.cancelled) ∈ (BrowserEngine.stop e).1.running_futures ∧
    handle_future FutState.cancelled = CallerResult.cancelledError := by
  refine ⟨?_, rfl⟩
  have hm := List.mem_map_of_mem (fun p => (p.1, cancelFuture p.2)) h
  exact hm

/-- C3 witness: a concrete engine with one pending future. -/
theorem C3_stop_cancels_pending_witness :
    (0, FutState.cancelled) ∈ (BrowserEngine.stop blockedEngine).1.running_futures ∧
    handle_future FutState.cancelled = CallerResult.cancelledError :=
  C3_stop_cancels_pending blockedEngine 0 (by decide)

/-- C6: stop is idempotent: a second stop returns the same state, performs
zero blocking joins of a live thread, and raises nothing (stop in the model
is a total function); the first stop of a live engine performs exactly one
worker-thread join. -/
theorem C6_stop_idempotent (e : EngineState) :
    BrowserEngine.stop (BrowserEngine.stop e).1 = ((BrowserEngine.stop e).1, 0) ∧
    (e.threadAlive = true → (BrowserEngine.stop e).2 = 1) := by
  constructor
  · unfold BrowserEngine.stop
    simp [cancelAll_idem, cancelFuture_idem]
  · intro h
    simp [BrowserEngine.stop, h]

/-- C6 witness: for the started engine, the first stop performs exactly one
live join and the second stop is a no-op. -/
theorem C6_stop_idempotent_witness :
    BrowserEngine.stop (BrowserEngine.stop startedEngine).1
        = ((BrowserEngine.stop startedEngine).1, 0) ∧
    (BrowserEngine.stop startedEngine).2 = 1 :=
  ⟨(C6_stop_idempotent startedEngine).1, (C6_stop_idempotent startedEngine).2 rfl⟩

/-- C10: when the engine is ready, execute with an fn whose invocation (on
the calling thread) did not produce a coroutine raises TypeError on the
calling thread, with zero units of work submitted to the loop, hence none
run on the worker thread. -/
theorem C10_nonCoroutine_typeError (e : EngineState) (h : e.startEventSet = true) :
    BrowserEngine.execute e BrowserEngine.FnResult.nonCoroutine
      = (BrowserEngine.ExecOutcome.typeError, 0) := by
  unfold BrowserEngine.execute
  simp [h]

/-- C10 witness: the started engine. -/
theorem C10_nonCoroutine_typeError_witness :
    BrowserEngine.execute startedEngine BrowserEngine.FnResult.nonCoroutine
      = (BrowserEngine.ExecOutcome.typeError, 0) :=
  C10_nonCoroutine_typeError startedEngine rfl

/-- C4: the result-wrapping rule of every dispatched operation: a value
with a __dict__ and a close member is wrapped into a new proxy sharing the
same engine, any other value is returned unwrapped; and the nested proxy is
immediately usable, an asynchronous method invocation on it being routed
through the same engine. -/
theorem C4_wrap_result_rule (w : BrowserObjectWrapper) (r r2 : Py) :
    ((r.hasDunderDict && r.hasAttr "close") = true →
      wrap_result w r = Ret.wrapped ⟨r, w.engine⟩ ∧
      invokeMethod ⟨r, w.engine⟩ (Py.asyncFn r2)
        = some (wrap_result ⟨r, w.engine⟩ r2, Thread.worker, [w.engine])) ∧
    ((r.hasDunderDict && r.hasAttr "close") = false →
      wrap_result w r = Ret.raw r) := by
  constructor
  · intro h
    refine ⟨?_, rfl⟩
    unfold wrap_result
    simp [h]
  · intro h
    unfold wrap_result
    simp [h]

/-- C4 witness: a handle-like value is wrapped with the same engine id 3,
and an asynchronous call on the resulting proxy dispatches to engine 3. -/
theorem C4_wrap_result_rule_witness :
    wrap_result ⟨Py.obj [], 3⟩ handleLikeChild = Ret.wrapped ⟨handleLikeChild, 3⟩ ∧
    invokeMethod ⟨handleLikeChild, 3⟩ (Py.asyncFn (Py.prim 9))
      = some (wrap_result ⟨handleLikeChild, 3⟩ (Py.prim 9), Thread.worker, [3]) :=
  (C4_wrap_result_rule ⟨Py.obj [], 3⟩ handleLikeChild (Py.prim 9)).1 rfl

/-- C5: an attribute resolving on the handle to a plain value is returned
directly with no engine dispatch; an attribute resolving to a nested object
with a __dict__ is returned as a new proxy over it sharing the same engine,
again with no dispatch; and the same holds one level deeper on the returned
proxy (and, by re-instantiating this theorem at each returned proxy, to
arbitrary depth). -/
theorem C5_plain_and_nested (w : BrowserObjectWrapper) (name : String) (n : Nat)
    (attrs : List (String × Py)) :
    (name ∉ internalNames → w.obj.getattr name = some (Py.prim n) →
      getattribute w name = (GetattrOutcome.plain n, [])) ∧
    (name ∉ internalNames → w.obj.getattr name = some (Py.obj attrs) →
      getattribute w name = (GetattrOutcome.nested ⟨Py.obj attrs, w.engine⟩, []) ∧
      ∀ name2 attrs2, name2 ∉ internalNames →
        (Py.obj attrs).getattr name2 = some (Py.obj attrs2) →
        getattribute ⟨Py.obj attrs, w.engine⟩ name2
          = (GetattrOutcome.nested ⟨Py.obj attrs2, w.engine⟩, [])) := by
  constructor
  · intro hn hg
    exact getattribute_prim w name n hn hg
  · intro hn hg
    refine ⟨getattribute_nested w name attrs hn hg, ?_⟩
    intro name2 attrs2 hn2 hg2
    exact getattribute_nested ⟨Py.obj attrs, w.engine⟩ name2 attrs2 hn2 hg2

/-- C5 witness: on nestedHandle, member n is the plain value 3 returned
directly, and member child is returned as a nested proxy sharing engine 4. -/
theorem C5_plain_and_nested_witness :
    getattribute ⟨nestedHandle, 4⟩ "n" = (GetattrOutcome.plain 3, []) ∧
    getattribute ⟨nestedHandle, 4⟩ "child"
      = (GetattrOutcome.nested ⟨Py.obj [("leaf", Py.prim 7)], 4⟩, []) := by
  constructor
  · exact (C5_plain_and_nested ⟨nestedHandle, 4⟩ "n" 3 []).1 (by decide) rfl
  · exact ((C5_plain_and_nested ⟨nestedHandle, 4⟩ "child" 0
      [("leaf", Py.prim 7)]).2 (by decide) rfl).1

/-- C7 (code bug): the claim says a failure while closing the backend
resource does not prevent the engine from being stopped.  But shutdown has
no try/finally: on runningSession (which owns its engine, temp_engine set)
a raising client.stop() propagates out of shutdown and the engine.stop()
line is never reached, leaving engineStopped false. -/
theorem C7_close_error_skips_engine_stop :
    runningSession.temp_engine = true ∧
    (BrowserSession.shutdown runningSession true).1.engineStopped = false ∧
    (BrowserSession.shutdown runningSession true).2 = true :=
  ⟨rfl, rfl, rfl⟩

/-- C8: the lifecycle state machine through close(): from a not-yet-closed
session with a main browser, close leads to the closed state and releases
the main browser through the engine exactly once; close on a closed session
is a no-op returning the state unchanged with no error; and close always
leaves the session closed (terminal, no way back), even when the teardown
step raises. -/
theorem C8_lifecycle (s : SessionState) (h : s.closed = false)
    (hmb : s.mainBrowser = true) :
    (BrowserSession.close s false).1.closed = true ∧
    (BrowserSession.close s false).1.releases = s.releases + 1 ∧
    (∀ b, BrowserSession.close (BrowserSession.close s false).1 b
        = ((BrowserSession.close s false).1, false)) ∧
    (∀ b, (BrowserSession.close s b).1.closed = true) := by
  have hcl : ∀ b, (BrowserSession.close s b).1.closed = true := by
    intro b
    unfold BrowserSession.close
    simp [h, shutdown_closed]
  refine ⟨hcl false, ?_, ?_, hcl⟩
  · unfold BrowserSession.close BrowserSession.shutdown BrowserSession.clientStop
    simp [h, hmb]
    split <;> rfl
  · intro b
    exact close_closed_noop _ (hcl false) b

/-- C8 witness: on runningSession, close moves to the closed state,
releases once, and a second close is a no-op. -/
theorem C8_lifecycle_witness :
    (BrowserSession.close runningSession false).1.closed = true ∧
    (BrowserSession.close runningSession false).1.releases = 1 ∧
    BrowserSession.close (BrowserSession.close runningSession false).1 false
      = ((BrowserSession.close runningSession false).1, false) := by
  have h := C8_lifecycle runningSession rfl rfl
  exact ⟨h.1, h.2.1, h.2.2.1 false⟩

/-- C9: shutdown sets the _closed flag first and never rolls it back, even
when teardown raises (second component true); afterwards every close() call
returns immediately with the state unchanged: no new teardown, no engine
dispatch (cookieSyncs and releases unchanged), no error. -/
theorem C9_closed_flag_set_first (s : SessionState) (b : Bool) :
    (BrowserSession.shutdown s b).1.closed = true ∧
    ∀ b2, BrowserSession.close (BrowserSession.shutdown s b).1 b2
        = ((BrowserSession.shutdown s b).1, false) := by
  refine ⟨shutdown_closed s b, ?_⟩
  intro b2
  exact close_closed_noop _ (shutdown_closed s b) b2

end Hrequests
